import Mathlib

/-!
Verification of `src/tools/generate-usability-review.py` (CSharperMcp).

The script defines a small MCP client (`McpClient` with `start`,
`send_request`, `close`) and a driver `generate_review` that runs a fixed
five-call exploration sequence against a child process and prints a
markdown report to stdout.

Shallow embedding conventions:
* Decoded JSON values are the inductive `Json` (Python `json.loads` output;
  number literals are modelled as integers, which covers every value the
  script itself builds).
* Python exceptions are the inductive `PyError`; the spec's names are kept
  where the spec names the failure (`processLaunchError` for the
  `FileNotFoundError`/`OSError` escaping `asyncio.create_subprocess_exec`,
  `protocolError` for the `json.JSONDecodeError` escaping `json.loads`).
* A line returned by `process.stdout.readline()` is a `ReadLine`: end of
  stream (empty bytes), a non-empty line that is not valid JSON, or a line
  decoding to a `Json` value.  `json_loads` is the stdlib decoder over this
  abstraction: it fails exactly on the first two shapes.
* The child process is a `Proc` holding a deterministic responder (the line
  the child has written when the client reads, as a function of the request
  just sent — faithful because the script is strictly request-then-read),
  a flag for a broken stdin pipe, the lifecycle state and the list of
  requests written to its stdin.
* `stderr` diagnostics (`print(..., file=sys.stderr)`) carry no state and
  are not modelled; stdout prints are modelled one `OutItem` per `print`.
-/

namespace UsabilityReview

/-- Decoded JSON values, as produced by Python `json.loads`. -/
inductive Json where
  | null
  | bool (b : Bool)
  | num (n : Int)
  | str (s : String)
  | arr (elems : List Json)
  | obj (fields : List (String × Json))

/-- Python exceptions that can escape the script's operations. -/
inductive PyError where
  | processLaunchError
  | protocolError
  | keyError (k : String)
  | typeError
  | writeError
  | attributeError
deriving DecidableEq, Repr

/-- One line as returned by `readline()` on the child's stdout. -/
inductive ReadLine where
  | eof
  | garbage (s : String)
  | json (j : Json)

/-- Python truthiness of a decoded JSON value (`bool(x)`). -/
def Json.isTruthy : Json → Bool
  | .null => false
  | .bool b => b
  | .num n => n != 0
  | .str s => s ≠ ""
  | .arr xs => !xs.isEmpty
  | .obj fs => !fs.isEmpty

/-- Python `x or default` for an optional argument defaulted to `None`
(the script's `params or {}`). -/
def pyOr (a : Option Json) (default : Json) : Json :=
  match a with
  | none => default
  | some j => if j.isTruthy then j else default

/-- Python subscript `d[k]` on a decoded value: `KeyError` when the key is
missing from a dict, `TypeError` when the value is not a dict (the script
only subscripts with string keys). -/
def Json.getKey : Json → String → Except PyError Json
  | .obj fs, k =>
    match fs.lookup k with
    | some v => .ok v
    | none => .error (.keyError k)
  | _, _ => .error .typeError

/-- Python `len(x)` on a decoded value. -/
def Json.pyLen : Json → Except PyError Nat
  | .str s => .ok s.length
  | .arr xs => .ok xs.length
  | .obj fs => .ok fs.length
  | _ => .error .typeError

/-- Python iteration `for x in v` on a decoded value: list elements, the
characters of a string, the keys of a dict; `TypeError` otherwise. -/
def Json.pyIter : Json → Except PyError (List Json)
  | .arr xs => .ok xs
  | .str s => .ok (s.data.map fun ch => .str (String.mk [ch]))
  | .obj fs => .ok (fs.map fun kv => .str kv.1)
  | _ => .error .typeError

/-- The value under key `k`, defaulting to `null`; used only to state
theorems whose hypotheses guarantee the key is present. -/
def Json.getD (j : Json) (k : String) : Json :=
  match j.getKey k with
  | .ok v => v
  | .error _ => .null

/-- Python `json.loads` over the `ReadLine` abstraction: decoding fails
(`json.JSONDecodeError`, the spec's `ProtocolError`) exactly when the line
is empty (EOF) or not valid JSON. -/
def json_loads : ReadLine → Except PyError Json
  | .eof => .error .protocolError
  | .garbage _ => .error .protocolError
  | .json j => .ok j

/-- One JSON-RPC request as assembled by `McpClient.send_request`:
`{"jsonrpc": "2.0", "id": ..., "method": ..., "params": ...}`. -/
structure Request where
  id : Nat
  method : String
  params : Json

/-- The wire form of a request, as serialized by `json.dumps`. -/
def Request.wire (r : Request) : Json :=
  .obj [("jsonrpc", .str "2.0"), ("id", .num (Int.ofNat r.id)),
        ("method", .str r.method), ("params", r.params)]

/-- Lifecycle state of the child process. -/
inductive ProcState where
  | running
  | terminated
deriving DecidableEq, Repr

/-- The child process handle created by `asyncio.create_subprocess_exec`:
its response behaviour, pipe health, lifecycle state, and the requests
written to its stdin (oldest first). -/
structure Proc where
  responder : Request → ReadLine
  stdinBroken : Bool
  state : ProcState
  sent : List Request

/-- Constructor `McpClient.__init__`: stores the server path, no process yet,
`message_id = 0`. -/
structure McpClient where
  server_path : String
  process : Option Proc
  message_id : Nat

/-- Outcome of `asyncio.create_subprocess_exec("dotnet", "run", ...)`:
either the executable cannot be found or started, or a child process
handle with the given behaviour. -/
inductive SpawnResult where
  | fail
  | ok (responder : Request → ReadLine) (stdinBroken : Bool)

/-- Method `McpClient.start`: spawn the child and store the handle; a spawn
failure (`FileNotFoundError`/`OSError`, the spec's `ProcessLaunchError`)
propagates and the handle stays unset. -/
def McpClient.start (c : McpClient) (sr : SpawnResult) :
    McpClient × Except PyError Unit :=
  match sr with
  | .fail => (c, .error .processLaunchError)
  | .ok responder stdinBroken =>
    ({ c with process := some ⟨responder, stdinBroken, .running, []⟩ }, .ok ())

/-- Method `McpClient.send_request`: increment `message_id`, build the request
with `params or {}`, write it to the child's stdin and drain, read one
response line and decode it.  The client state (the incremented counter,
the written request) is returned alongside the outcome even when the call
fails, matching Python object mutation under exception propagation. -/
def McpClient.send_request (c : McpClient) (method : String)
    (params : Option Json := none) : McpClient × Except PyError Json :=
  let c := { c with message_id := c.message_id + 1 }
  match c.process with
  | none => (c, .error .attributeError)
  | some p =>
    let req : Request :=
      { id := c.message_id, method := method, params := pyOr params (.obj []) }
    let p := { p with sent := p.sent ++ [req] }
    let c := { c with process := some p }
    (c, if p.stdinBroken then .error .writeError
        else json_loads (p.responder req))

/-- Stdlib `Popen.terminate`/`send_signal` semantics: signal a running process;
do nothing if the process already completed. -/
def Proc.terminate (p : Proc) : Proc :=
  { p with state := .terminated }

/-- Method `McpClient.close`: if a process handle exists, terminate it and wait
for exit; otherwise do nothing.  Never raises. -/
def McpClient.close (c : McpClient) : McpClient × Except PyError Unit :=
  match c.process with
  | none => (c, .ok ())
  | some p => ({ c with process := some p.terminate }, .ok ())

/-- The ids of the requests this client has written, oldest first. -/
def McpClient.sentIds (c : McpClient) : List Nat :=
  match c.process with
  | none => []
  | some p => p.sent.map Request.id

/-- The requests this client has written, oldest first. -/
def McpClient.sentRequests (c : McpClient) : List Request :=
  match c.process with
  | none => []
  | some p => p.sent

/-- Run a list of `(method, params)` calls in sequence, keeping the client
state across calls (responses and errors are discarded; the driver's use
is modelled separately in `generate_review`). -/
def runCalls (c : McpClient) : List (String × Option Json) → McpClient
  | [] => c
  | (m, p) :: rest => runCalls (c.send_request m p).1 rest

/-- One `print(...)` to stdout in `generate_review`:
* `text s` — a print of a fixed literal (the f-strings with no
  interpolation; `s` is the argument, `print` appends one more newline);
* `textVal p v suf` — a print of an f-string interpolating exactly one
  decoded value `v` (`str(v)`) between the literal parts `p` and `suf`;
* `codeBlock j` — a print of a fenced block
  `f"\x60\x60\x60json\n{json.dumps(j, indent=2)}\n\x60\x60\x60\n"`,
  kept structural in `j`. -/
inductive OutItem where
  | text (s : String)
  | textVal (pre : String) (v : Json) (suf : String)
  | codeBlock (j : Json)

/-- The `for tool in tools_response["result"]["tools"]` loop body of
`generate_review`: four prints per descriptor; a missing key raises
`KeyError` at the lookup inside the corresponding f-string, keeping the
prints already emitted.  Returns the emitted items and the exception, if
any, that aborted the loop. -/
def renderTools : List Json → List OutItem × Option PyError
  | [] => ([], none)
  | t :: ts =>
    match t.getKey "name" with
    | .error e => ([], some e)
    | .ok nm =>
      match t.getKey "description" with
      | .error e => ([.textVal "### Tool: `" nm "`\n"], some e)
      | .ok desc =>
        match t.getKey "inputSchema" with
        | .error e =>
          ([.textVal "### Tool: `" nm "`\n",
            .textVal "**Description:** " desc "\n",
            .text "**Parameters:**\n"], some e)
        | .ok schema =>
          let rest := renderTools ts
          (.textVal "### Tool: `" nm "`\n" ::
           .textVal "**Description:** " desc "\n" ::
           .text "**Parameters:**\n" ::
           .codeBlock schema :: rest.1, rest.2)

/-- The `initialize` params literal of `generate_review`. -/
def initializeParams : Json :=
  .obj [("protocolVersion", .str "2024-11-05"), ("capabilities", .obj []),
        ("clientInfo", .obj [("name", .str "usability-review"),
                             ("version", .str "1.0")])]

/-- The `tools/call` params for `initialize_workspace`
(`workspace_path` is `project_root`, resolved from the script location). -/
def workspaceCallParams (workspace_path : String) : Json :=
  .obj [("name", .str "initialize_workspace"),
        ("arguments", .obj [("path", .str workspace_path)])]

/-- The `tools/call` params for `get_diagnostics`. -/
def diagnosticsCallParams : Json :=
  .obj [("name", .str "get_diagnostics"), ("arguments", .obj [])]

/-- The `tools/call` params for `get_symbol_info`. -/
def symbolCallParams : Json :=
  .obj [("name", .str "get_symbol_info"),
        ("arguments", .obj [("symbolName", .str "System.String")])]

/-- Outcome of one `generate_review` run: the final client state (after
the `finally: await client.close()`), the stdout items emitted before any
failure, and the overall result (`.ok` on completion, otherwise the
propagated exception). -/
structure RunResult where
  client : McpClient
  out : List OutItem
  result : Except PyError Unit

/-- The `finally` block: `close()` always runs, then the result (partial
stdout included) surfaces. -/
def finishWith (c : McpClient) (out : List OutItem)
    (r : Except PyError Unit) : RunResult :=
  { client := (c.close).1, out := out, result := r }

/-- The requests written to the child during the run, oldest first. -/
def RunResult.requests (rr : RunResult) : List Request :=
  rr.client.sentRequests

/-- The invocation batch of `generate_review` (everything after the tool
listing loop): the three `tools/call` invocations, each header/input
printed before the send and the output printed after it. -/
def invocationBatch (workspace_path : String) (client : McpClient)
    (out : List OutItem) : RunResult :=
  let out := out ++
    [.text "## Tool Outputs\n",
     .text "### 1. `initialize_workspace` - Load workspace\n",
     .text "**Input:**\n",
     .codeBlock (.obj [("path", .str workspace_path)])]
  match client.send_request "tools/call"
      (some (workspaceCallParams workspace_path)) with
  | (client, .error e) => finishWith client out (.error e)
  | (client, .ok workspace_response) =>
    let out := out ++
      [.text "**Output:**\n",
       .codeBlock workspace_response,
       .text "### 2. `get_diagnostics` - Get compiler errors/warnings\n",
       .text "**Input:** (entire workspace, warnings and above)\n",
       .codeBlock (.obj [])]
    match client.send_request "tools/call" (some diagnosticsCallParams) with
    | (client, .error e) => finishWith client out (.error e)
    | (client, .ok diag_response) =>
      let out := out ++
        [.text "**Output:**\n",
         .codeBlock diag_response,
         .text "### 3. `get_symbol_info` - Get symbol information\n",
         .text "**Input:** (by name - System.String)\n",
         .codeBlock (.obj [("symbolName", .str "System.String")])]
      match client.send_request "tools/call" (some symbolCallParams) with
      | (client, .error e) => finishWith client out (.error e)
      | (client, .ok symbol_response) =>
        let out := out ++
          [.text "**Output:**\n",
           .codeBlock symbol_response,
           .text "\n---\n",
           .text "Review complete!"]
        finishWith client out (.ok ())

/-- Function `generate_review`, transliterated: build the client
(`server_path = project_root / "src" / "CSharperMcp.Server"`,
`workspace_path = project_root`), start it (`sr` is the spawn outcome),
sleep (no state change), then run the five-call sequence, printing the
report sections between calls; any exception skips the rest and reaches
the `finally`. -/
def generate_review (project_root : String) (sr : SpawnResult) : RunResult :=
  let workspace_path := project_root
  let client : McpClient :=
    { server_path := project_root ++ "/src/CSharperMcp.Server",
      process := none, message_id := 0 }
  match client.start sr with
  | (client, .error e) => finishWith client [] (.error e)
  | (client, .ok _) =>
    match client.send_request "initialize" (some initializeParams) with
    | (client, .error e) => finishWith client [] (.error e)
    | (client, .ok init_response) =>
      let out : List OutItem :=
        [.text "\n# CSharper MCP Server - Usability Review\n",
         .text "## Server Information\n",
         .codeBlock init_response]
      match client.send_request "tools/list" with
      | (client, .error e) => finishWith client out (.error e)
      | (client, .ok tools_response) =>
        let out := out ++ [.text "## Available Tools\n"]
        match (tools_response.getKey "result").bind (·.getKey "tools") with
        | .error e => finishWith client out (.error e)
        | .ok tools =>
          match tools.pyLen with
          | .error e => finishWith client out (.error e)
          | .ok n =>
            let out := out ++ [.textVal "Found " (.num (Int.ofNat n)) " tools:\n"]
            match tools.pyIter with
            | .error e => finishWith client out (.error e)
            | .ok toolList =>
              let rendered := renderTools toolList
              let out := out ++ rendered.1
              match rendered.2 with
              | some e => finishWith client out (.error e)
              | none => invocationBatch workspace_path client out

/-- The stub child of the spec's end-to-end scenario: it answers every
request with the well-formed line
`{"id": <n>, "result": {"echo": <method>}}`. -/
def echoResponder : Request → ReadLine :=
  fun r => .json (.obj [("id", .num (Int.ofNat r.id)),
                        ("result", .obj [("echo", .str r.method)])])

/-- A child that answers the request with id `k` with the JSON line `aₖ`
(any later request gets `a5`); with five requests this covers every child
that answers each request with one line decoding to a JSON value. -/
def scriptedResponder (a1 a2 a3 a4 a5 : Json) : Request → ReadLine :=
  fun r =>
    match r.id with
    | 1 => .json a1
    | 2 => .json a2
    | 3 => .json a3
    | 4 => .json a4
    | _ => .json a5

/-- A `tools/list` response whose result carries the descriptor list `ts`. -/
def toolsOkResponse (ts : List Json) : Json :=
  .obj [("id", .num 2), ("result", .obj [("tools", .arr ts)])]

/-- A well-formed capability descriptor (all three keys present). -/
def sampleTool : Json :=
  .obj [("name", .str "alpha"), ("description", .str "demo"),
        ("inputSchema", .obj [("type", .str "object")])]

/-- A descriptor with name and description but no `inputSchema`. -/
def schemalessTool : Json :=
  .obj [("name", .str "alpha"), ("description", .str "demo")]

/-- A started client whose child never writes a line (readline yields
EOF). -/
def eofClient : McpClient :=
  { server_path := "srv", process := some ⟨fun _ => .eof, false, .running, []⟩,
    message_id := 0 }

/-- A freshly constructed client (`McpClient(server_path)`), not started. -/
def idleClient : McpClient :=
  { server_path := "srv", process := none, message_id := 0 }

/-- The four stdout items the loop body prints for one descriptor with all
three keys present. -/
def toolItems (t : Json) : List OutItem :=
  [.textVal "### Tool: `" (t.getD "name") "`\n",
   .textVal "**Description:** " (t.getD "description") "\n",
   .text "**Parameters:**\n",
   .codeBlock (t.getD "inputSchema")]

/-- Whether a stdout item is the header print of one tool section. -/
def OutItem.isToolHeader : OutItem → Bool
  | .textVal p _ _ => p == "### Tool: `"
  | _ => false

/-- The name interpolated into a tool section header item, if the item
is one. -/
def headerVal : OutItem → Option Json
  | .textVal p v _ => if p == "### Tool: `" then some v else none
  | _ => none

/-- The names interpolated into the tool section headers, in print order. -/
def toolHeaderVals (out : List OutItem) : List Json :=
  out.filterMap headerVal

/-- The stdout items of a complete run that precede the tool sections. -/
def reportPrefix (init_response : Json) (toolCount : Nat) : List OutItem :=
  [.text "\n# CSharper MCP Server - Usability Review\n",
   .text "## Server Information\n",
   .codeBlock init_response,
   .text "## Available Tools\n",
   .textVal "Found " (.num (Int.ofNat toolCount)) " tools:\n"]

/-- The stdout items of a complete run from `## Tool Outputs` on, around
the three `tools/call` responses. -/
def reportSuffix (workspace_path : String)
    (workspace_response diag_response symbol_response : Json) : List OutItem :=
  [.text "## Tool Outputs\n",
   .text "### 1. `initialize_workspace` - Load workspace\n",
   .text "**Input:**\n",
   .codeBlock (.obj [("path", .str workspace_path)]),
   .text "**Output:**\n",
   .codeBlock workspace_response,
   .text "### 2. `get_diagnostics` - Get compiler errors/warnings\n",
   .text "**Input:** (entire workspace, warnings and above)\n",
   .codeBlock (.obj []),
   .text "**Output:**\n",
   .codeBlock diag_response,
   .text "### 3. `get_symbol_info` - Get symbol information\n",
   .text "**Input:** (by name - System.String)\n",
   .codeBlock (.obj [("symbolName", .str "System.String")]),
   .text "**Output:**\n",
   .codeBlock symbol_response,
   .text "\n---\n",
   .text "Review complete!"]

/-- The five requests of the exploration sequence, in order. -/
def expectedRequests (workspace_path : String) : List Request :=
  [⟨1, "initialize", initializeParams⟩,
   ⟨2, "tools/list", .obj []⟩,
   ⟨3, "tools/call", workspaceCallParams workspace_path⟩,
   ⟨4, "tools/call", diagnosticsCallParams⟩,
   ⟨5, "tools/call", symbolCallParams⟩]

/-- The first two of `expectedRequests` (handshake and discovery). -/
def discoveryRequests : List Request :=
  [⟨1, "initialize", initializeParams⟩, ⟨2, "tools/list", .obj []⟩]

/-- The four stdout items from `## Tool Outputs` up to the first
`tools/call` send. -/
def outputsIntro (workspace_path : String) : List OutItem :=
  [.text "## Tool Outputs\n",
   .text "### 1. `initialize_workspace` - Load workspace\n",
   .text "**Input:**\n",
   .codeBlock (.obj [("path", .str workspace_path)])]

/-- The five stdout items between the first and the second `tools/call`. -/
def diagnosticsIntro (workspace_response : Json) : List OutItem :=
  [.text "**Output:**\n",
   .codeBlock workspace_response,
   .text "### 2. `get_diagnostics` - Get compiler errors/warnings\n",
   .text "**Input:** (entire workspace, warnings and above)\n",
   .codeBlock (.obj [])]

/-- The five stdout items between the second and the third `tools/call`. -/
def symbolIntro (diag_response : Json) : List OutItem :=
  [.text "**Output:**\n",
   .codeBlock diag_response,
   .text "### 3. `get_symbol_info` - Get symbol information\n",
   .text "**Input:** (by name - System.String)\n",
   .codeBlock (.obj [("symbolName", .str "System.String")])]

/-- The four stdout items after the third `tools/call`. -/
def reviewClose (symbol_response : Json) : List OutItem :=
  [.text "**Output:**\n",
   .codeBlock symbol_response,
   .text "\n---\n",
   .text "Review complete!"]

/-- The client state after handshake and discovery: two requests written,
counter at 2, process running. -/
def scriptedClientTwo (wp : String) (r : Request → ReadLine) : McpClient :=
  McpClient.mk (wp ++ "/src/CSharperMcp.Server")
    (some ⟨r, false, .running, discoveryRequests⟩) 2

/-- The client state after a complete run and the `finally` close: all
five requests written, counter at 5, process terminated. -/
def scriptedClientDone (wp : String) (r : Request → ReadLine) : McpClient :=
  McpClient.mk (wp ++ "/src/CSharperMcp.Server")
    (some ⟨r, false, .terminated, expectedRequests wp⟩) 5

/-- The client state when the run aborted during the tool listing loop
and the `finally` close ran: only the two discovery requests written. -/
def scriptedClientAborted (wp : String) (r : Request → ReadLine) : McpClient :=
  McpClient.mk (wp ++ "/src/CSharperMcp.Server")
    (some ⟨r, false, .terminated, discoveryRequests⟩) 2

/-- A full run against a scripted child. -/
def scriptedRun (wp : String) (a1 a2 a3 a4 a5 : Json) : RunResult :=
  generate_review wp (.ok (scriptedResponder a1 a2 a3 a4 a5) false)

/-- The run of the spec's end-to-end scenario: the echo stub child. -/
def echoRun : RunResult :=
  generate_review "/repo" (.ok echoResponder false)

/-- A run whose `tools/list` response is well-shaped but whose single
descriptor lacks `inputSchema`. -/
def schemalessRun : RunResult :=
  generate_review "/repo"
    (.ok (scriptedResponder .null (toolsOkResponse [schemalessTool])
          .null .null .null) false)

/-- A JSON-RPC error envelope (no `result` member), as a server returns
for a failed call. -/
def errorEnvelope : Json :=
  .obj [("jsonrpc", .str "2.0"), ("id", .num 1),
        ("error", .obj [("code", .num (-32600)),
                        ("message", .str "Invalid Request")])]

/-! ## Helper lemmas -/

/-- Running `send_request` on a started client: the returned client has the
incremented counter and the one new request appended, whatever the call's
outcome. -/
theorem send_request_fst (sp : String) (pr : Proc) (mid : Nat) (m : String)
    (p : Option Json) :
    ((McpClient.mk sp (some pr) mid).send_request m p).1
      = McpClient.mk sp
          (some { pr with
                  sent := pr.sent ++ [⟨mid + 1, m, pyOr p (.obj [])⟩] })
          (mid + 1) := rfl

/-- Invariant carried across `runCalls`: if the requests already written
have ids `1, ..., message_id`, then after any further calls they have ids
`1, ..., message_id + number of calls`. -/
theorem runCalls_sentIds (calls : List (String × Option Json)) :
    ∀ (sp : String) (pr : Proc) (mid : Nat),
      pr.sent.map Request.id = List.range' 1 mid →
      (runCalls (McpClient.mk sp (some pr) mid) calls).sentIds
        = List.range' 1 (mid + calls.length) := by
  induction calls with
  | nil =>
    intro sp pr mid h
    simpa [runCalls, McpClient.sentIds] using h
  | cons mp rest ih =>
    intro sp pr mid h
    obtain ⟨m, p⟩ := mp
    rw [runCalls, send_request_fst]
    rw [ih sp _ (mid + 1)
      (by simp [h, List.range'_1_concat, Nat.add_comm])]
    congr 1
    simp only [List.length_cons]
    omega

/-- Lemma: `reportSuffix` decomposed at the three send points. -/
theorem reportSuffix_decomp (wp : String) (a3 a4 a5 : Json) :
    reportSuffix wp a3 a4 a5
      = outputsIntro wp ++ diagnosticsIntro a3 ++ symbolIntro a4
          ++ reviewClose a5 := rfl

/-- The invocation batch against a scripted child, from the
post-discovery client state: all three calls succeed, the three
responses are rendered as-is, and the `finally` close runs. -/
theorem invocationBatch_scripted (wp : String) (a1 a2 a3 a4 a5 : Json)
    (out : List OutItem) :
    invocationBatch wp (scriptedClientTwo wp (scriptedResponder a1 a2 a3 a4 a5))
        out
      = { client := scriptedClientDone wp (scriptedResponder a1 a2 a3 a4 a5),
          out := ((out ++ outputsIntro wp ++ diagnosticsIntro a3)
                    ++ symbolIntro a4) ++ reviewClose a5,
          result := .ok () } := rfl

/-- Reduction of `generate_review` against a scripted child whose `tools/list` answer
is well-shaped, reduced to the outcome of the tool listing loop. -/
theorem generate_review_scripted_eq (wp : String) (a1 a3 a4 a5 : Json)
    (ts : List Json) :
    generate_review wp
        (.ok (scriptedResponder a1 (toolsOkResponse ts) a3 a4 a5) false)
      = (match (renderTools ts).2 with
         | some e =>
           finishWith
             (scriptedClientTwo wp
               (scriptedResponder a1 (toolsOkResponse ts) a3 a4 a5))
             (reportPrefix a1 ts.length ++ (renderTools ts).1) (.error e)
         | none =>
           invocationBatch wp
             (scriptedClientTwo wp
               (scriptedResponder a1 (toolsOkResponse ts) a3 a4 a5))
             (reportPrefix a1 ts.length ++ (renderTools ts).1)) := rfl

/-- The tool listing loop completes without exception when every
descriptor carries the three keys the loop reads. -/
theorem renderTools_none_of_keys (ts : List Json)
    (h : ∀ t ∈ ts, (t.getKey "name").isOk ∧ (t.getKey "description").isOk ∧
          (t.getKey "inputSchema").isOk) :
    (renderTools ts).2 = none := by
  induction ts with
  | nil => rfl
  | cons t ts ih =>
    obtain ⟨hn, hd, hs⟩ := h t (by simp)
    rcases en : t.getKey "name" with e | nm
    · rw [en] at hn; cases hn
    rcases ed : t.getKey "description" with e | d
    · rw [ed] at hd; cases hd
    rcases es : t.getKey "inputSchema" with e | sch
    · rw [es] at hs; cases hs
    have := ih fun t' ht' => h t' (by simp [ht'])
    simpa [renderTools, en, ed, es] using this

/-- When the loop completes, it has printed exactly the four items of
`toolItems` for each descriptor, in order. -/
theorem renderTools_ok (ts : List Json) (h : (renderTools ts).2 = none) :
    (renderTools ts).1 = ts.flatMap toolItems := by
  induction ts with
  | nil => rfl
  | cons t ts ih =>
    rcases en : t.getKey "name" with e | nm
    · exfalso; simp [renderTools, en] at h
    rcases ed : t.getKey "description" with e | d
    · exfalso; simp [renderTools, en, ed] at h
    rcases es : t.getKey "inputSchema" with e | sch
    · exfalso; simp [renderTools, en, ed, es] at h
    have h' : (renderTools ts).2 = none := by
      simpa [renderTools, en, ed, es] using h
    simp [renderTools, en, ed, es, ih h', toolItems, Json.getD]

/-- The loop over `pre ++ ts` first renders `pre` (assumed clean) and
then behaves as the loop over `ts`. -/
theorem renderTools_append_ok (pre : List Json) (po : List OutItem)
    (h : renderTools pre = (po, none)) (ts : List Json) :
    renderTools (pre ++ ts)
      = (po ++ (renderTools ts).1, (renderTools ts).2) := by
  induction pre generalizing po with
  | nil =>
    obtain ⟨rfl, -⟩ := Prod.mk.injEq .. ▸ h
    simp
  | cons t pre ih =>
    rcases en : t.getKey "name" with e | nm
    · rw [renderTools, en] at h; cases (Prod.mk.injEq .. ▸ h).2
    rcases ed : t.getKey "description" with e | d
    · rw [renderTools, en, ed] at h; cases (Prod.mk.injEq .. ▸ h).2
    rcases es : t.getKey "inputSchema" with e | sch
    · rw [renderTools, en, ed, es] at h; cases (Prod.mk.injEq .. ▸ h).2
    rw [renderTools, en, ed, es] at h
    obtain ⟨hpo, hpe⟩ := Prod.mk.injEq .. ▸ h
    rw [List.cons_append, renderTools, en, ed, es]
    rw [ih (renderTools pre).1 (by rw [← hpe, Prod.mk.eta])]
    simp [← hpo]

/-- One tool header item is printed per descriptor; `countP` agrees with
the extracted header names. -/
theorem countP_toolHeaderVals (out : List OutItem) :
    out.countP OutItem.isToolHeader = (toolHeaderVals out).length := by
  induction out with
  | nil => rfl
  | cons it out ih =>
    cases it with
    | text s => simpa [toolHeaderVals, List.countP_cons, OutItem.isToolHeader] using ih
    | codeBlock j => simpa [toolHeaderVals, List.countP_cons, OutItem.isToolHeader] using ih
    | textVal p v suf =>
      by_cases hb : p = "### Tool: `"
      · subst hb
        simpa [toolHeaderVals, headerVal, List.countP_cons,
               OutItem.isToolHeader] using ih
      · simpa [toolHeaderVals, headerVal, List.countP_cons,
               OutItem.isToolHeader, hb] using ih

/-- The header names of the rendered tool sections are exactly the
descriptors' declared names, in order. -/
theorem toolHeaderVals_flatMap (ts : List Json) :
    toolHeaderVals (ts.flatMap toolItems)
      = ts.map (fun t => t.getD "name") := by
  induction ts with
  | nil => rfl
  | cons t ts ih =>
    unfold toolHeaderVals at ih ⊢
    rw [List.flatMap_cons, List.filterMap_append, ih,
        show List.filterMap headerVal (toolItems t) = [t.getD "name"] from rfl]
    rfl

/-- Outside the tool listing loop the report contains no tool header. -/
theorem toolHeaderVals_outside (a1 : Json) (n : Nat) (wp : String)
    (a3 a4 a5 : Json) :
    toolHeaderVals (reportPrefix a1 n) = [] ∧
      toolHeaderVals (reportSuffix wp a3 a4 a5) = [] :=
  ⟨rfl, rfl⟩

/-- The tool headers of a full report are those of the listing loop. -/
theorem toolHeaderVals_report (a1 : Json) (n : Nat) (ro : List OutItem)
    (wp : String) (a3 a4 a5 : Json) :
    toolHeaderVals (reportPrefix a1 n ++ ro ++ reportSuffix wp a3 a4 a5)
      = toolHeaderVals ro := by
  unfold toolHeaderVals
  rw [List.filterMap_append, List.filterMap_append,
      show List.filterMap headerVal (reportPrefix a1 n) = [] from rfl,
      show List.filterMap headerVal (reportSuffix wp a3 a4 a5) = [] from rfl]
  simp

/-- Full run against a scripted child with a clean tool listing: the
five requests go out in order, the report is prefix + tool sections +
suffix, and the run completes. -/
theorem generate_review_scripted_ok (wp : String) (a1 a3 a4 a5 : Json)
    (ts : List Json) (h : (renderTools ts).2 = none) :
    generate_review wp
        (.ok (scriptedResponder a1 (toolsOkResponse ts) a3 a4 a5) false)
      = { client := scriptedClientDone wp
            (scriptedResponder a1 (toolsOkResponse ts) a3 a4 a5),
          out := reportPrefix a1 ts.length ++ (renderTools ts).1
                   ++ reportSuffix wp a3 a4 a5,
          result := .ok () } := by
  rw [generate_review_scripted_eq, h, invocationBatch_scripted,
      reportSuffix_decomp]
  simp [List.append_assoc]

/-- Full run against a scripted child whose tool listing loop raises at
some descriptor: the loop's partial output is kept, the exception
propagates, and only the two discovery requests were sent. -/
theorem generate_review_scripted_err (wp : String) (a1 a3 a4 a5 : Json)
    (ts : List Json) (e : PyError) (h : (renderTools ts).2 = some e) :
    generate_review wp
        (.ok (scriptedResponder a1 (toolsOkResponse ts) a3 a4 a5) false)
      = { client := scriptedClientAborted wp
            (scriptedResponder a1 (toolsOkResponse ts) a3 a4 a5),
          out := reportPrefix a1 ts.length ++ (renderTools ts).1,
          result := .error e } := by
  rw [generate_review_scripted_eq, h]
  rfl

/-! ## Claim theorems -/

/-- C1: for every session (a freshly constructed client whose `start`
succeeded) and every sequence of `send_request` calls, the ids carried by
the successive requests are exactly `1, 2, 3, ...`: the first request has
id 1 and each later id is one greater than the previous one. -/
theorem request_ids_sequential (sp : String) (responder : Request → ReadLine)
    (broken : Bool) (calls : List (String × Option Json)) :
    (runCalls ((McpClient.mk sp none 0).start (.ok responder broken)).1
        calls).sentIds
      = List.range' 1 calls.length := by
  have h := runCalls_sentIds calls sp ⟨responder, broken, .running, []⟩ 0 (by simp)
  simpa [McpClient.start] using h

/-- C3: `close()` is idempotent and never raises — closing twice equals
closing once, and closing a client whose `start` never ran (no process
handle) returns normally and leaves the client unchanged. -/
theorem close_idempotent_safe (c : McpClient) :
    (c.close.1).close = c.close ∧ c.close.2 = Except.ok () ∧
      (c.process = none → c.close.1 = c) := by
  obtain ⟨sp, proc, mid⟩ := c
  cases proc with
  | none => exact ⟨rfl, rfl, fun _ => rfl⟩
  | some p => exact ⟨rfl, rfl, fun h => nomatch h⟩

/-- Witness for C3 at the never-started client. -/
theorem close_idempotent_safe_witness :
    (idleClient.close.1).close = idleClient.close ∧
      idleClient.close.2 = Except.ok () ∧ idleClient.close.1 = idleClient :=
  ⟨(close_idempotent_safe idleClient).1, (close_idempotent_safe idleClient).2.1,
   (close_idempotent_safe idleClient).2.2 rfl⟩

/-- C4: if the line read from the child's stdout is empty (EOF) or not
parseable as JSON, `send_request` fails with the decode error (the spec's
`ProtocolError`) instead of returning any structured value. -/
theorem send_request_protocol_error (c : McpClient) (m : String)
    (p : Option Json) (pr : Proc) (hp : c.process = some pr)
    (hb : pr.stdinBroken = false)
    (hline :
      pr.responder ⟨c.message_id + 1, m, pyOr p (.obj [])⟩ = ReadLine.eof ∨
      ∃ s, pr.responder ⟨c.message_id + 1, m, pyOr p (.obj [])⟩
            = ReadLine.garbage s) :
    (c.send_request m p).2 = Except.error PyError.protocolError := by
  obtain ⟨sp, proc, mid⟩ := c
  subst hp
  rcases hline with h | ⟨s, h⟩ <;>
    simp [McpClient.send_request, hb, h, json_loads]

/-- Witness for C4: a child that writes nothing (readline yields EOF). -/
theorem send_request_protocol_error_witness :
    (eofClient.send_request "ping" none).2
      = Except.error PyError.protocolError :=
  send_request_protocol_error eofClient "ping" none
    ⟨fun _ => .eof, false, .running, []⟩ rfl rfl (Or.inl rfl)

/-- C5: when the target executable cannot be found or started, `start()`
fails with the launch error (the spec's `ProcessLaunchError`). -/
theorem start_launch_failure (c : McpClient) :
    (c.start SpawnResult.fail).2 = Except.error PyError.processLaunchError :=
  rfl

/-- C9: `send_request` with params omitted (`None`, the default) and with
`params = {}` produce identical results — and any falsy params value
(which in particular covers `{}`) is replaced by `{}` on the wire. -/
theorem params_default_empty (c : McpClient) (m : String) :
    c.send_request m none = c.send_request m (some (.obj [])) ∧
      ∀ j : Json, j.isTruthy = false →
        c.send_request m (some j) = c.send_request m none := by
  refine ⟨rfl, fun j hj => ?_⟩
  obtain ⟨sp, proc, mid⟩ := c
  simp [McpClient.send_request, pyOr, hj]

/-- Witness for C9 at `params = None` (`null` is falsy). -/
theorem params_default_empty_witness :
    (idleClient.send_request "x" none
        = idleClient.send_request "x" (some (.obj []))) ∧
      idleClient.send_request "x" (some .null)
        = idleClient.send_request "x" none :=
  ⟨(params_default_empty idleClient "x").1,
   (params_default_empty idleClient "x").2 .null rfl⟩

/-- C10: every call to `send_request` consumes exactly one id — the
counter is incremented before the write, whatever the outcome, and on a
started client the written request carries the fresh id, so a failed
request's id is never reused. -/
theorem send_request_consumes_id (c : McpClient) (m : String)
    (p : Option Json) :
    ((c.send_request m p).1).message_id = c.message_id + 1 ∧
      ∀ pr, c.process = some pr →
        ((c.send_request m p).1).sentRequests
          = pr.sent ++ [⟨c.message_id + 1, m, pyOr p (.obj [])⟩] := by
  obtain ⟨sp, proc, mid⟩ := c
  cases proc with
  | none => exact ⟨rfl, fun pr h => nomatch h⟩
  | some q =>
    refine ⟨rfl, fun pr h => ?_⟩
    cases Option.some.inj h
    rfl

/-- Witness for C10 at a started client whose read fails (EOF child):
the id is consumed even though the call errors. -/
theorem send_request_consumes_id_witness :
    ((eofClient.send_request "ping" none).1).message_id
        = eofClient.message_id + 1 ∧
      ((eofClient.send_request "ping" none).1).sentRequests
        = [⟨1, "ping", .obj []⟩] :=
  ⟨(send_request_consumes_id eofClient "ping" none).1,
   (send_request_consumes_id eofClient "ping" none).2
      ⟨fun _ => .eof, false, .running, []⟩ rfl⟩

/-- C2 counterexample: against the spec's echo stub — a child answering
every request with the well-formed line
`{"id": n, "result": {"echo": method}}` — the run does not issue five
requests or render five sections: it aborts with a `KeyError` at
`tools_response["result"]["tools"]` after only two requests and four
stdout items. -/
theorem echo_stub_aborts_discovery :
    echoRun.result = Except.error (PyError.keyError "tools") ∧
      echoRun.requests.length = 2 ∧ echoRun.out.length = 4 :=
  ⟨rfl, rfl, rfl⟩

/-- C2 (amended): for every child process that answers each request with
one well-formed response line and whose `tools/list` answer carries
`result.tools`, a list of descriptors each with `name`, `description`
and `inputSchema`, the full script issues exactly the five requests in
method order initialize, tools/list, tools/call(initialize_workspace),
tools/call(get_diagnostics), tools/call(get_symbol_info), and renders
the five request/response sections in that order. -/
theorem full_sequence_five_sections (wp : String) (a1 a3 a4 a5 : Json)
    (ts : List Json)
    (h : ∀ t ∈ ts, (t.getKey "name").isOk ∧ (t.getKey "description").isOk ∧
          (t.getKey "inputSchema").isOk) :
    (scriptedRun wp a1 (toolsOkResponse ts) a3 a4 a5).requests
        = expectedRequests wp ∧
      (scriptedRun wp a1 (toolsOkResponse ts) a3 a4 a5).out
        = reportPrefix a1 ts.length ++ ts.flatMap toolItems
            ++ reportSuffix wp a3 a4 a5 ∧
      (scriptedRun wp a1 (toolsOkResponse ts) a3 a4 a5).result = .ok () := by
  have h2 := renderTools_none_of_keys ts h
  unfold scriptedRun
  rw [generate_review_scripted_ok wp a1 a3 a4 a5 ts h2, renderTools_ok ts h2]
  exact ⟨rfl, rfl, rfl⟩

/-- Witness for C2 (amended) at one well-formed descriptor. -/
theorem full_sequence_five_sections_witness :
    (scriptedRun "/repo" .null (toolsOkResponse [sampleTool])
        .null .null .null).requests = expectedRequests "/repo" ∧
      (scriptedRun "/repo" .null (toolsOkResponse [sampleTool])
          .null .null .null).out
        = reportPrefix .null 1 ++ [sampleTool].flatMap toolItems
            ++ reportSuffix "/repo" .null .null .null ∧
      (scriptedRun "/repo" .null (toolsOkResponse [sampleTool])
          .null .null .null).result = .ok () :=
  full_sequence_five_sections "/repo" .null .null .null .null [sampleTool]
    (by
      intro t ht
      rw [List.mem_singleton] at ht
      subst ht
      exact ⟨rfl, rfl, rfl⟩)

/-- C6 counterexample: a descriptor with `name` and `description` but no
`inputSchema` is not skipped — the run raises `KeyError` there and stops
after the two discovery requests, instead of proceeding. -/
theorem missing_schema_not_skipped :
    schemalessRun.result = Except.error (PyError.keyError "inputSchema") ∧
      schemalessRun.requests.length = 2 :=
  ⟨rfl, rfl⟩

/-- C6 (amended): for every descriptor with all three keys the Driver
emits one section with its name, description and accepted-input shape
(see the listing lemmas); but when a descriptor's input shape is absent
the run does not skip that entry and proceed — the loop stops inside
that entry's section (name and description already printed), the
`KeyError` propagates, and the three tool invocations never happen. -/
theorem missing_schema_raises (wp : String) (a1 a3 a4 a5 : Json)
    (pre : List Json) (po : List OutItem) (t : Json) (rest : List Json)
    (nm d : Json) (hpre : renderTools pre = (po, none))
    (hn : t.getKey "name" = .ok nm) (hd : t.getKey "description" = .ok d)
    (hs : t.getKey "inputSchema" = .error (.keyError "inputSchema")) :
    renderTools (pre ++ t :: rest)
        = (po ++ [.textVal "### Tool: `" nm "`\n",
                  .textVal "**Description:** " d "\n",
                  .text "**Parameters:**\n"],
           some (.keyError "inputSchema")) ∧
      (scriptedRun wp a1 (toolsOkResponse (pre ++ t :: rest))
          a3 a4 a5).result = .error (.keyError "inputSchema") ∧
      (scriptedRun wp a1 (toolsOkResponse (pre ++ t :: rest))
          a3 a4 a5).requests = discoveryRequests := by
  have h1 : renderTools (t :: rest)
      = ([.textVal "### Tool: `" nm "`\n",
          .textVal "**Description:** " d "\n",
          .text "**Parameters:**\n"], some (.keyError "inputSchema")) := by
    simp [renderTools, hn, hd, hs]
  have hall := renderTools_append_ok pre po hpre (t :: rest)
  rw [h1] at hall
  refine ⟨hall, ?_, ?_⟩
  · unfold scriptedRun
    rw [generate_review_scripted_err wp a1 a3 a4 a5 (pre ++ t :: rest)
          (.keyError "inputSchema") (by rw [hall])]
  · unfold scriptedRun
    rw [generate_review_scripted_err wp a1 a3 a4 a5 (pre ++ t :: rest)
          (.keyError "inputSchema") (by rw [hall])]
    rfl

/-- Witness for C6 (amended) at the concrete schemaless descriptor. -/
theorem missing_schema_raises_witness :
    renderTools [schemalessTool]
        = ([.textVal "### Tool: `" (.str "alpha") "`\n",
            .textVal "**Description:** " (.str "demo") "\n",
            .text "**Parameters:**\n"],
           some (.keyError "inputSchema")) ∧
      (scriptedRun "/repo" .null (toolsOkResponse [schemalessTool])
          .null .null .null).result
        = .error (.keyError "inputSchema") ∧
      (scriptedRun "/repo" .null (toolsOkResponse [schemalessTool])
          .null .null .null).requests = discoveryRequests :=
  missing_schema_raises "/repo" .null .null .null .null [] [] schemalessTool
    [] (.str "alpha") (.str "demo") rfl rfl rfl rfl

/-- C7: when the `tools/list` result carries N descriptors, each with
`name`, `description` and `inputSchema`, the report contains exactly N
tool header sections, one per descriptor, carrying the descriptors'
declared names in order. -/
theorem tool_sections_one_per_descriptor (wp : String) (a1 a3 a4 a5 : Json)
    (ts : List Json)
    (h : ∀ t ∈ ts, (t.getKey "name").isOk ∧ (t.getKey "description").isOk ∧
          (t.getKey "inputSchema").isOk) :
    (scriptedRun wp a1 (toolsOkResponse ts) a3 a4 a5).out.countP
          OutItem.isToolHeader = ts.length ∧
      toolHeaderVals (scriptedRun wp a1 (toolsOkResponse ts) a3 a4 a5).out
        = ts.map (fun t => t.getD "name") := by
  have h2 := renderTools_none_of_keys ts h
  unfold scriptedRun
  rw [generate_review_scripted_ok wp a1 a3 a4 a5 ts h2, renderTools_ok ts h2]
  have hv : toolHeaderVals
      (reportPrefix a1 ts.length ++ ts.flatMap toolItems
        ++ reportSuffix wp a3 a4 a5) = ts.map (fun t => t.getD "name") := by
    rw [toolHeaderVals_report, toolHeaderVals_flatMap]
  exact ⟨by rw [countP_toolHeaderVals, hv, List.length_map], hv⟩

/-- Witness for C7 at one descriptor named "alpha". -/
theorem tool_sections_one_per_descriptor_witness :
    (scriptedRun "/repo" .null (toolsOkResponse [sampleTool])
        .null .null .null).out.countP OutItem.isToolHeader = 1 ∧
      toolHeaderVals (scriptedRun "/repo" .null (toolsOkResponse [sampleTool])
          .null .null .null).out = [.str "alpha"] :=
  tool_sections_one_per_descriptor "/repo" .null .null .null .null [sampleTool]
    (by
      intro t ht
      rw [List.mem_singleton] at ht
      subst ht
      exact ⟨rfl, rfl, rfl⟩)

/-- C8: the Driver never branches on the success or failure content of
the handshake or tool-invocation responses: for arbitrary values of the
initialize response and of the three `tools/call` responses (error
envelopes included), all five requests are still issued, each response is
rendered as-is in the report, and the run completes. -/
theorem responses_rendered_unconditionally (wp : String) (a1 a3 a4 a5 : Json)
    (ts : List Json) (h : (renderTools ts).2 = none) :
    (scriptedRun wp a1 (toolsOkResponse ts) a3 a4 a5).result = .ok () ∧
      (scriptedRun wp a1 (toolsOkResponse ts) a3 a4 a5).requests
        = expectedRequests wp ∧
      OutItem.codeBlock a1 ∈ (scriptedRun wp a1 (toolsOkResponse ts) a3 a4 a5).out ∧
      OutItem.codeBlock a3 ∈ (scriptedRun wp a1 (toolsOkResponse ts) a3 a4 a5).out ∧
      OutItem.codeBlock a4 ∈ (scriptedRun wp a1 (toolsOkResponse ts) a3 a4 a5).out ∧
      OutItem.codeBlock a5 ∈ (scriptedRun wp a1 (toolsOkResponse ts) a3 a4 a5).out := by
  unfold scriptedRun
  rw [generate_review_scripted_ok wp a1 a3 a4 a5 ts h]
  refine ⟨rfl, rfl, ?_, ?_, ?_, ?_⟩ <;>
    simp [reportPrefix, reportSuffix]

/-- Witness for C8: both the handshake response and all three invocation
responses are JSON-RPC error envelopes, yet the run completes with all
five requests sent and the envelopes rendered as-is. -/
theorem responses_rendered_unconditionally_witness :
    (scriptedRun "/repo" errorEnvelope (toolsOkResponse [])
        errorEnvelope errorEnvelope errorEnvelope).result = .ok () ∧
      (scriptedRun "/repo" errorEnvelope (toolsOkResponse [])
          errorEnvelope errorEnvelope errorEnvelope).requests
        = expectedRequests "/repo" ∧
      OutItem.codeBlock errorEnvelope ∈
        (scriptedRun "/repo" errorEnvelope (toolsOkResponse [])
          errorEnvelope errorEnvelope errorEnvelope).out ∧
      OutItem.codeBlock errorEnvelope ∈
        (scriptedRun "/repo" errorEnvelope (toolsOkResponse [])
          errorEnvelope errorEnvelope errorEnvelope).out ∧
      OutItem.codeBlock errorEnvelope ∈
        (scriptedRun "/repo" errorEnvelope (toolsOkResponse [])
          errorEnvelope errorEnvelope errorEnvelope).out ∧
      OutItem.codeBlock errorEnvelope ∈
        (scriptedRun "/repo" errorEnvelope (toolsOkResponse [])
          errorEnvelope errorEnvelope errorEnvelope).out :=
  responses_rendered_unconditionally "/repo" errorEnvelope errorEnvelope
    errorEnvelope errorEnvelope [] rfl

end UsabilityReview
